import Mathlib

/-!
Shallow embedding of `src/components/employee/time-tracking-widget.tsx`
(the `TimeTrackingWidget` React component).

Modelling conventions:
* React `useState` variables become fields of `WidgetState`.
* JavaScript numbers obtained from `Date.getTime()` / `Date.now()` and the
  arithmetic done on them are modelled by `JsNum`: an integer number of
  milliseconds or `NaN` (an unparsable date string yields `NaN`, and `NaN`
  propagates through subtraction, division, remainder and `toString`).
* `new Date(s).getTime()` and date-fns `parseISO` are external; they are
  passed in as a parameter `parse : String → JsNum` (`JsNum.nan` models an
  unparsable timestamp).  date-fns `format` on a valid date is likewise an
  abstract formatter parameter; on an invalid date it throws, which the
  embedding of `formatActivityTime` reflects in its `nan` branch.
* Each async handler is summarised as a pure function from the pre-call
  state and the outcome of its network round trip to the post-call state
  plus the externally observable `Effects` (requests issued, toasts shown,
  broadcast events dispatched, scheduled refreshes).
* JavaScript truthiness is modelled where the source relies on it:
  `undefined`/`null` and the empty string are falsy, an empty array is
  truthy, `x || d` on strings falls back to `d` exactly when `x` is
  `undefined`/`null`/empty.
-/

/-- JS session status union `'active' | 'completed' | 'break'`. -/
inductive Status where
  | active
  | completed
  | break_
deriving DecidableEq, Repr

/-- The `CurrentTimeEntry` interface of the source (timestamps kept as the
raw strings the server sent, as in the source). -/
structure CurrentTimeEntry where
  id : String
  clock_in : String
  clock_out : Option String := none
  break_start : Option String := none
  break_end : Option String := none
  status : Status
  location : Option String := none
  total_hours : Option Int := none
  break_duration : Int := 0
deriving DecidableEq, Repr

/-- The `RecentActivity` interface of the source. -/
structure RecentActivity where
  id : String
  clock_in : String
  clock_out : Option String := none
  total_hours : Option Int := none
  status : Status
  date : String
deriving DecidableEq, Repr

/-- A JavaScript number as produced by date arithmetic: an integer count of
milliseconds, or `NaN`. -/
inductive JsNum where
  | num : Int → JsNum
  | nan : JsNum
deriving DecidableEq, Repr

/-- JS subtraction `a - b` (`NaN` absorbs). -/
def jsSub : JsNum → JsNum → JsNum
  | JsNum.num a, JsNum.num b => JsNum.num (a - b)
  | _, _ => JsNum.nan

/-- JS `Math.floor(a / n)` for a positive integer constant `n`
(`Int.fdiv` is floor division, matching `Math.floor` on the real quotient). -/
def jsFloorDiv : JsNum → Int → JsNum
  | JsNum.num a, n => JsNum.num (Int.fdiv a n)
  | JsNum.nan, _ => JsNum.nan

/-- JS remainder `a % n`: sign follows the dividend, i.e. truncated
division remainder (`Int.tmod`). -/
def jsMod : JsNum → Int → JsNum
  | JsNum.num a, n => JsNum.num (Int.tmod a n)
  | JsNum.nan, _ => JsNum.nan

/-- JS `Number.prototype.toString` restricted to our values: integers print
as usual, `NaN` prints as `"NaN"`. -/
def jsNumToString : JsNum → String
  | JsNum.num a => toString a
  | JsNum.nan => "NaN"

/-- JS `String.prototype.padStart(2, '0')`. -/
def padStart2 (s : String) : String :=
  String.mk (List.replicate (2 - s.length) '0') ++ s

/-- JS `x || d` for an optional string `x`: falls back to `d` when `x` is
`undefined`/`null` or the empty string (both falsy). -/
def jsOrElse (x : Option String) (d : String) : String :=
  match x with
  | some m => if m = "" then d else m
  | none => d

/-- `formatTime` (source lines 198-204): milliseconds to `HH:MM:SS`. -/
def formatTime (milliseconds : JsNum) : String :=
  let hours := jsFloorDiv milliseconds (1000 * 60 * 60)
  let minutes := jsFloorDiv (jsMod milliseconds (1000 * 60 * 60)) (1000 * 60)
  let seconds := jsFloorDiv (jsMod milliseconds (1000 * 60)) 1000
  padStart2 (jsNumToString hours) ++ ":" ++ padStart2 (jsNumToString minutes)
    ++ ":" ++ padStart2 (jsNumToString seconds)

/-- `formatActivityTime` (source lines 222-229): `parseISO` then
`format(date, 'HH:mm:ss')` inside a `try`; on an unparsable string
(`parseISO` yields an invalid date and `format` throws a `RangeError`)
the `catch` returns the raw input string.  `fmt` abstracts date-fns
`format` on a valid timestamp. -/
def formatActivityTime (parseIso : String → JsNum) (fmt : Int → String)
    (timeString : String) : String :=
  match parseIso timeString with
  | JsNum.num t => fmt t
  | JsNum.nan => timeString

/-- The component's `useState` variables (render-only `currentTime` of the
cosmetic wall clock is omitted; it touches no session state). -/
structure WidgetState where
  currentEntry : Option CurrentTimeEntry
  recentActivities : List RecentActivity
  isLoading : Bool
  elapsedTime : JsNum
  breakTime : JsNum
  isRealTime : Bool
deriving DecidableEq, Repr

/-- The initial `useState` values. -/
def initialState : WidgetState :=
  { currentEntry := none
    recentActivities := []
    isLoading := true
    elapsedTime := JsNum.num 0
    breakTime := JsNum.num 0
    isRealTime := false }

/-- `updateTimer` (source lines 71-83), the 1-second tick callback:
`status === 'active'` sets `elapsedTime := Date.now() - new Date(clock_in)`;
`status === 'break' && break_start` (truthiness: absent or empty string
fails the guard) sets `breakTime := Date.now() - new Date(break_start)`. -/
def updateTimer (parse : String → JsNum) (now : Int) (s : WidgetState) : WidgetState :=
  match s.currentEntry with
  | some e =>
      if e.status = Status.active then
        { s with elapsedTime := jsSub (JsNum.num now) (parse e.clock_in) }
      else if e.status = Status.break_ then
        match e.break_start with
        | some bs =>
            if bs = "" then s
            else { s with breakTime := jsSub (JsNum.num now) (parse bs) }
        | none => s
      else s
  | none => s

/-- The timer panel (source lines 525-539): rendered only when a current
entry exists; shows `formatTime breakTime` when the status is `break`,
otherwise `formatTime elapsedTime`. -/
def displayedTimer (s : WidgetState) : Option String :=
  match s.currentEntry with
  | some e =>
      some (if e.status = Status.break_ then formatTime s.breakTime
            else formatTime s.elapsedTime)
  | none => none

/-- The header status line (source lines 477-486): `"Ready to clock in"`
without a current entry, otherwise `Since <formatted clock-in>`. -/
def headerStatusText (parseIso : String → JsNum) (fmt : Int → String)
    (s : WidgetState) : String :=
  match s.currentEntry with
  | some e => "Since " ++ formatActivityTime parseIso fmt e.clock_in
  | none => "Ready to clock in"

/-- The body of a `POST /api/time-entries` request (`action` field), plus
the bare `GET /api/time-entries` used for history. -/
inductive ApiAction where
  | get_current
  | clock_in
  | clock_out
  | start_break
  | end_break
  | list_entries
deriving DecidableEq, Repr

/-- A parsed POST-response body `{success, data, error?}` (the `data` field
is `null`able). -/
structure Response where
  success : Bool
  data : Option CurrentTimeEntry := none
  error : Option String := none
deriving DecidableEq, Repr

/-- A parsed GET-response body `{success, data, error?}` for the history
endpoint. -/
structure ListResponse where
  success : Bool
  data : Option (List RecentActivity) := none
  error : Option String := none
deriving DecidableEq, Repr

/-- Externally observable effects of one handler run: API requests issued,
`window.dispatchEvent(new CustomEvent('timeTrackingChanged'))` broadcasts,
`toast.success` titles, `toast.error` messages, and whether a delayed
`fetchRecentActivities` refresh was scheduled via `setTimeout`. -/
structure Effects where
  requests : List ApiAction := []
  broadcasts : Nat := 0
  successToasts : List String := []
  errorToasts : List String := []
  refreshScheduled : Bool := false
deriving DecidableEq, Repr

/-- No observable effect. -/
def noEffects : Effects := {}

/-- Outcome of one `fetch` round trip from a handler's point of view:
the body parsed from an HTTP-ok-or-not response (the mutating handlers
call `response.json()` unconditionally), or a thrown error
(network failure / unparsable body). -/
inductive FetchOutcome where
  | ok (r : Response)
  | throw
deriving DecidableEq, Repr

/-- Outcome of the `get_current` round trip in `fetchCurrentEntry`, which
distinguishes `response.ok` from HTTP error statuses and is preceded by a
`getCurrentUser()` gate. -/
inductive CurrentFetchOutcome where
  | noUser
  | ok (r : Response)
  | httpError (status : Nat)
  | throw
deriving DecidableEq, Repr

/-- Outcome of the history GET in `fetchRecentActivities`. -/
inductive ListFetchOutcome where
  | noUser
  | ok (r : ListResponse)
  | httpError (status : Nat)
  | throw
deriving DecidableEq, Repr

/-- `fetchCurrentEntry` (source lines 101-141).  No user: early return, no
state change.  `response.ok`: `setCurrentEntry(result.data)` (note: the
`success` flag of the body is not consulted) and `setIsRealTime(true)`.
Not ok (404, 401, anything else): `setCurrentEntry(null)`.  Thrown error:
`setCurrentEntry(null)`.  No toast is shown on any path (console only). -/
def fetchCurrentEntry (o : CurrentFetchOutcome) (s : WidgetState) :
    WidgetState × Effects :=
  match o with
  | CurrentFetchOutcome.noUser => (s, noEffects)
  | CurrentFetchOutcome.ok r =>
      ({ s with currentEntry := r.data, isRealTime := true },
       { noEffects with requests := [ApiAction.get_current] })
  | CurrentFetchOutcome.httpError _ =>
      ({ s with currentEntry := none },
       { noEffects with requests := [ApiAction.get_current] })
  | CurrentFetchOutcome.throw =>
      ({ s with currentEntry := none },
       { noEffects with requests := [ApiAction.get_current] })

/-- `fetchRecentActivities` (source lines 144-177).  On an ok response with
`result.success && result.data` (an array, even empty, is truthy) it keeps
`result.data.slice(0, 3)`; every other path only logs. -/
def fetchRecentActivities (o : ListFetchOutcome) (s : WidgetState) :
    WidgetState × Effects :=
  match o with
  | ListFetchOutcome.noUser => (s, noEffects)
  | ListFetchOutcome.ok r =>
      if r.success then
        match r.data with
        | some l =>
            ({ s with recentActivities := l.take 3 },
             { noEffects with requests := [ApiAction.list_entries] })
        | none => (s, { noEffects with requests := [ApiAction.list_entries] })
      else (s, { noEffects with requests := [ApiAction.list_entries] })
  | ListFetchOutcome.httpError _ =>
      (s, { noEffects with requests := [ApiAction.list_entries] })
  | ListFetchOutcome.throw =>
      (s, { noEffects with requests := [ApiAction.list_entries] })

/-- `handleClockIn` (source lines 251-298).  `if (isLoading) return;` guard;
then `getCurrentUser()` gate (no user: error toast, no request, `finally`
clears the flag); then the POST.  Success: success toast,
`setCurrentEntry(result.data)`, broadcast, schedule a history refresh.
Failure: `toast.error(result.error || "Failed to clock in")`.
Thrown: `toast.error("Failed to clock in")`. -/
def handleClockIn (user : Option Unit) (o : FetchOutcome) (s : WidgetState) :
    WidgetState × Effects :=
  if s.isLoading then (s, noEffects)
  else
    match user with
    | none =>
        ({ s with isLoading := false },
         { noEffects with errorToasts := ["Please log in to clock in"] })
    | some _ =>
        match o with
        | FetchOutcome.ok r =>
            if r.success then
              ({ s with currentEntry := r.data, isLoading := false },
               { requests := [ApiAction.clock_in]
                 broadcasts := 1
                 successToasts := ["Clocked in successfully!"]
                 errorToasts := []
                 refreshScheduled := true })
            else
              ({ s with isLoading := false },
               { noEffects with
                   requests := [ApiAction.clock_in]
                   errorToasts := [jsOrElse r.error "Failed to clock in"] })
        | FetchOutcome.throw =>
            ({ s with isLoading := false },
             { noEffects with
                 requests := [ApiAction.clock_in]
                 errorToasts := ["Failed to clock in"] })

/-- `handleClockOut` (source lines 301-337).  `if (isLoading) return;`
guard, then the POST (no user gate here).  On `result.success` the success
toast description evaluates `result.data.total_hours?.toFixed(2) || '0'`:
when `result.data` is null this member access throws a `TypeError` before
`setCurrentEntry(null)` runs, control lands in the `catch` block and the
state is left unchanged.  With `data` non-null: clears the entry, zeroes
both timers, broadcasts and schedules the refresh.  Failure:
`toast.error(result.error || "Failed to clock out")`. -/
def handleClockOut (o : FetchOutcome) (s : WidgetState) :
    WidgetState × Effects :=
  if s.isLoading then (s, noEffects)
  else
    match o with
    | FetchOutcome.ok r =>
        if r.success then
          match r.data with
          | some _ =>
              ({ s with currentEntry := none
                        elapsedTime := JsNum.num 0
                        breakTime := JsNum.num 0
                        isLoading := false },
               { requests := [ApiAction.clock_out]
                 broadcasts := 1
                 successToasts := ["Clocked out successfully!"]
                 errorToasts := []
                 refreshScheduled := true })
          | none =>
              ({ s with isLoading := false },
               { noEffects with
                   requests := [ApiAction.clock_out]
                   errorToasts := ["Failed to clock out"] })
        else
          ({ s with isLoading := false },
           { noEffects with
               requests := [ApiAction.clock_out]
               errorToasts := [jsOrElse r.error "Failed to clock out"] })
    | FetchOutcome.throw =>
        ({ s with isLoading := false },
         { noEffects with
             requests := [ApiAction.clock_out]
             errorToasts := ["Failed to clock out"] })

/-- `handleStartBreak` (source lines 340-375).  Guard, POST; success:
`setCurrentEntry(result.data)`, `setBreakTime(0)`, broadcast, scheduled
refresh; failure: `toast.error(result.error || "Failed to start break")`. -/
def handleStartBreak (o : FetchOutcome) (s : WidgetState) :
    WidgetState × Effects :=
  if s.isLoading then (s, noEffects)
  else
    match o with
    | FetchOutcome.ok r =>
        if r.success then
          ({ s with currentEntry := r.data
                    breakTime := JsNum.num 0
                    isLoading := false },
           { requests := [ApiAction.start_break]
             broadcasts := 1
             successToasts := ["Break started"]
             errorToasts := []
             refreshScheduled := true })
        else
          ({ s with isLoading := false },
           { noEffects with
               requests := [ApiAction.start_break]
               errorToasts := [jsOrElse r.error "Failed to start break"] })
    | FetchOutcome.throw =>
        ({ s with isLoading := false },
         { noEffects with
             requests := [ApiAction.start_break]
             errorToasts := ["Failed to start break"] })

/-- `handleEndBreak` (source lines 378-413).  Same shape as
`handleStartBreak` with the `end_break` action. -/
def handleEndBreak (o : FetchOutcome) (s : WidgetState) :
    WidgetState × Effects :=
  if s.isLoading then (s, noEffects)
  else
    match o with
    | FetchOutcome.ok r =>
        if r.success then
          ({ s with currentEntry := r.data
                    breakTime := JsNum.num 0
                    isLoading := false },
           { requests := [ApiAction.end_break]
             broadcasts := 1
             successToasts := ["Break ended"]
             errorToasts := []
             refreshScheduled := true })
        else
          ({ s with isLoading := false },
           { noEffects with
               requests := [ApiAction.end_break]
               errorToasts := [jsOrElse r.error "Failed to end break"] })
    | FetchOutcome.throw =>
        ({ s with isLoading := false },
         { noEffects with
             requests := [ApiAction.end_break]
             errorToasts := ["Failed to end break"] })

/-- The action buttons rendered (source lines 493-521): with a current
entry, only a Clock Out button and only when the status is `active`
(a `break` or `completed` entry renders no button); with no entry, the
Clock In button.  Both carry `disabled={isLoading}`. -/
def renderedActions (s : WidgetState) : List ApiAction :=
  match s.currentEntry with
  | some e => if e.status = Status.active then [ApiAction.clock_out] else []
  | none => [ApiAction.clock_in]

/-- Rendered actions that are actually clickable (`disabled={isLoading}`). -/
def clickableActions (s : WidgetState) : List ApiAction :=
  if s.isLoading then [] else renderedActions s

/-- The history entries actually rendered (source line 571:
`recentActivities.slice(0, 3).map`). -/
def displayedActivities (s : WidgetState) : List RecentActivity :=
  s.recentActivities.take 3

/-- A concrete open session used to instantiate theorems. -/
def sampleActive : CurrentTimeEntry :=
  { id := "e1", clock_in := "2024-01-01T09:00:00Z", status := Status.active }

/-- A concrete on-break session used to instantiate theorems. -/
def sampleBreak : CurrentTimeEntry :=
  { id := "e1", clock_in := "2024-01-01T09:00:00Z",
    break_start := some "2024-01-01T10:00:00Z", status := Status.break_ }

/-- A settled (post-load) widget state holding the given entry. -/
def readyState (e : Option CurrentTimeEntry) : WidgetState :=
  { initialState with currentEntry := e, isLoading := false }

/-- A date environment parsing every string to the fixed instant `t`. -/
def parseAt (t : Int) : String → JsNum := fun _ => JsNum.num t

/-- A date environment in which every string is unparsable. -/
def nanParse : String → JsNum := fun _ => JsNum.nan

/-- Claim C1: for a current session with status `active`, the tick callback
sets the elapsed work time to `now − clock_in` and the timer panel displays
that value; for status `break` with a (truthy) `break_start`, it sets the
break time to `now − break_start` and the panel displays that value. -/
theorem updateTimer_elapsed_eq (parse : String → JsNum) (now : Int)
    (s : WidgetState) (e : CurrentTimeEntry) (h : s.currentEntry = some e) :
    (e.status = Status.active →
      (updateTimer parse now s).elapsedTime
          = jsSub (JsNum.num now) (parse e.clock_in) ∧
      displayedTimer (updateTimer parse now s)
          = some (formatTime (jsSub (JsNum.num now) (parse e.clock_in)))) ∧
    (∀ bs, e.status = Status.break_ → e.break_start = some bs → bs ≠ "" →
      (updateTimer parse now s).breakTime
          = jsSub (JsNum.num now) (parse bs) ∧
      displayedTimer (updateTimer parse now s)
          = some (formatTime (jsSub (JsNum.num now) (parse bs)))) := by
  constructor
  · intro ha
    simp [updateTimer, displayedTimer, h, ha]
  · intro bs hb hbs hne
    simp [updateTimer, displayedTimer, h, hb, hbs, hne]

/-- Witness for C1 at a concrete active session and instant. -/
theorem updateTimer_elapsed_eq_witness :
    (updateTimer (parseAt 1000) 6000 (readyState (some sampleActive))).elapsedTime
        = jsSub (JsNum.num 6000) (parseAt 1000 sampleActive.clock_in) :=
  ((updateTimer_elapsed_eq (parseAt 1000) 6000 (readyState (some sampleActive))
      sampleActive rfl).1 rfl).1

/-- Claim C2: while the busy flag (`isLoading`) is set, each of the four
mutating handlers returns immediately: the state is unchanged and no
request, toast, broadcast or scheduled refresh is produced. -/
theorem busyFlag_ignores_actions (s : WidgetState) (h : s.isLoading = true)
    (u : Option Unit) (o1 o2 o3 o4 : FetchOutcome) :
    handleClockIn u o1 s = (s, noEffects) ∧
    handleClockOut o2 s = (s, noEffects) ∧
    handleStartBreak o3 s = (s, noEffects) ∧
    handleEndBreak o4 s = (s, noEffects) := by
  simp [handleClockIn, handleClockOut, handleStartBreak, handleEndBreak, h]

/-- Witness for C2 at the initial (loading) state. -/
theorem busyFlag_ignores_actions_witness :
    handleClockIn none FetchOutcome.throw initialState
        = (initialState, noEffects) ∧
    handleClockOut FetchOutcome.throw initialState
        = (initialState, noEffects) :=
  ⟨(busyFlag_ignores_actions initialState rfl none FetchOutcome.throw
      FetchOutcome.throw FetchOutcome.throw FetchOutcome.throw).1,
   (busyFlag_ignores_actions initialState rfl none FetchOutcome.throw
      FetchOutcome.throw FetchOutcome.throw FetchOutcome.throw).2.1⟩

/-- Helper: re-setting a cleared busy flag leaves the state unchanged. -/
theorem setLoading_false_eq (s : WidgetState) (h : s.isLoading = false) :
    ({ s with isLoading := false } : WidgetState) = s := by
  cases s
  simp_all

/-- Counterexample to C3 as stated: a clock-out response that reports
success but whose `data` field is null does not clear the local session.
Evaluating the success-toast description dereferences
`result.data.total_hours` (line 316) and throws before `setCurrentEntry(null)`
runs, so the open session survives a success response. -/
theorem clockOut_success_nullData_counterexample :
    ({ success := true } : Response).success = true ∧
    (handleClockOut (FetchOutcome.ok { success := true })
        (readyState (some sampleActive))).1.currentEntry = some sampleActive ∧
    (handleClockOut (FetchOutcome.ok { success := true })
        (readyState (some sampleActive))).1.currentEntry ≠ none := by
  refine ⟨rfl, rfl, ?_⟩
  decide

/-- Claim C3 amended: after a clock-out whose response reports success and
carries a session in `data`, the local session is cleared and both timers
read zero (displayed `00:00:00`); a success response with null `data`
throws inside the success-toast description, is caught, and leaves the
state unchanged (with an error toast); a failure response or a thrown
request leaves the state unchanged. -/
theorem clockOut_amended (s : WidgetState) (r : Response)
    (h : s.isLoading = false) :
    (r.success = true → ∀ d, r.data = some d →
      (handleClockOut (FetchOutcome.ok r) s).1.currentEntry = none ∧
      (handleClockOut (FetchOutcome.ok r) s).1.elapsedTime = JsNum.num 0 ∧
      (handleClockOut (FetchOutcome.ok r) s).1.breakTime = JsNum.num 0 ∧
      formatTime (JsNum.num 0) = "00:00:00") ∧
    (r.success = true → r.data = none →
      (handleClockOut (FetchOutcome.ok r) s).1 = s ∧
      (handleClockOut (FetchOutcome.ok r) s).2.errorToasts
          = ["Failed to clock out"]) ∧
    (r.success = false → (handleClockOut (FetchOutcome.ok r) s).1 = s) ∧
    (handleClockOut FetchOutcome.throw s).1 = s := by
  have hs' := setLoading_false_eq s h
  refine ⟨?_, ?_, ?_, ?_⟩
  · intro hsucc d hd
    refine ⟨?_, ?_, ?_, by decide⟩ <;> simp [handleClockOut, h, hsucc, hd]
  · intro hsucc hd
    constructor <;> simp [handleClockOut, h, hsucc, hd, hs', noEffects]
  · intro hsucc
    simp [handleClockOut, h, hsucc, hs']
  · simp [handleClockOut, h, hs']

/-- Witness for the amended C3 at a concrete success response with data. -/
theorem clockOut_amended_witness :
    (handleClockOut
        (FetchOutcome.ok { success := true, data := some sampleActive })
        (readyState (some sampleActive))).1.currentEntry = none :=
  ((clockOut_amended (readyState (some sampleActive))
      { success := true, data := some sampleActive } rfl).1
      rfl sampleActive rfl).1

/-- Claim C4: whatever ends the current-session fetch without an ok
response — no authenticated user, an HTTP error status (404, 401 or any
other), or a thrown request — a widget that held no open session ends with
no open session, shows no error toast, and renders the
ready-to-clock-in header. -/
theorem fetchCurrentEntry_silent_empty (s : WidgetState) (st : Nat)
    (h : s.currentEntry = none)
    (parseIso : String → JsNum) (fmt : Int → String) :
    ((fetchCurrentEntry CurrentFetchOutcome.noUser s).1.currentEntry = none ∧
     (fetchCurrentEntry CurrentFetchOutcome.noUser s).2.errorToasts = [] ∧
     headerStatusText parseIso fmt
        (fetchCurrentEntry CurrentFetchOutcome.noUser s).1
        = "Ready to clock in") ∧
    ((fetchCurrentEntry (CurrentFetchOutcome.httpError st) s).1.currentEntry
        = none ∧
     (fetchCurrentEntry (CurrentFetchOutcome.httpError st) s).2.errorToasts
        = [] ∧
     headerStatusText parseIso fmt
        (fetchCurrentEntry (CurrentFetchOutcome.httpError st) s).1
        = "Ready to clock in") ∧
    ((fetchCurrentEntry CurrentFetchOutcome.throw s).1.currentEntry = none ∧
     (fetchCurrentEntry CurrentFetchOutcome.throw s).2.errorToasts = [] ∧
     headerStatusText parseIso fmt
        (fetchCurrentEntry CurrentFetchOutcome.throw s).1
        = "Ready to clock in") := by
  simp [fetchCurrentEntry, headerStatusText, noEffects, h]

/-- Witness for C4: a 401 on the mount-time fetch leaves the empty state. -/
theorem fetchCurrentEntry_silent_empty_witness :
    (fetchCurrentEntry (CurrentFetchOutcome.httpError 401)
        initialState).1.currentEntry = none :=
  (fetchCurrentEntry_silent_empty initialState 401 rfl nanParse
      (fun _ => "")).2.1.1

/-- Claim C5: a clock-in whose response reports success replaces the local
session with the response's `data` and emits exactly one broadcast; a
failure response or a thrown request shows an error toast, leaves the
state unchanged, and emits no broadcast. -/
theorem clockIn_reconciles (s : WidgetState) (r : Response)
    (h : s.isLoading = false) :
    (r.success = true →
      (handleClockIn (some ()) (FetchOutcome.ok r) s).1.currentEntry
          = r.data ∧
      (handleClockIn (some ()) (FetchOutcome.ok r) s).2.broadcasts = 1) ∧
    (r.success = false →
      (handleClockIn (some ()) (FetchOutcome.ok r) s).1 = s ∧
      (handleClockIn (some ()) (FetchOutcome.ok r) s).2.errorToasts
          = [jsOrElse r.error "Failed to clock in"] ∧
      (handleClockIn (some ()) (FetchOutcome.ok r) s).2.broadcasts = 0) ∧
    ((handleClockIn (some ()) FetchOutcome.throw s).1 = s ∧
     (handleClockIn (some ()) FetchOutcome.throw s).2.errorToasts
        = ["Failed to clock in"] ∧
     (handleClockIn (some ()) FetchOutcome.throw s).2.broadcasts = 0) := by
  have hs' := setLoading_false_eq s h
  refine ⟨?_, ?_, ?_⟩
  · intro hsucc
    constructor <;> simp [handleClockIn, h, hsucc]
  · intro hsucc
    refine ⟨?_, ?_, ?_⟩ <;> simp [handleClockIn, h, hsucc, hs', noEffects]
  · refine ⟨?_, ?_, ?_⟩ <;> simp [handleClockIn, h, hs', noEffects]

/-- Witness for C5 at a concrete successful clock-in. -/
theorem clockIn_reconciles_witness :
    (handleClockIn (some ())
        (FetchOutcome.ok { success := true, data := some sampleActive })
        (readyState none)).1.currentEntry = some sampleActive :=
  ((clockIn_reconciles (readyState none)
      { success := true, data := some sampleActive } rfl).1 rfl).1

/-- Helper: JS subtraction by `NaN` yields `NaN`. -/
theorem jsSub_nan (a : JsNum) : jsSub a JsNum.nan = JsNum.nan := by
  cases a <;> rfl

/-- Helper: `formatTime` on `NaN` milliseconds renders `NaN:NaN:NaN`. -/
theorem formatTime_nan : formatTime JsNum.nan = "NaN:NaN:NaN" := by decide

/-- Counterexample to C6 as stated: two different unparsable timestamps
render as two different strings (`formatActivityTime` falls back to the raw
input), so the display on unparsable input is not a fixed placeholder. -/
theorem unparsable_placeholder_counterexample :
    nanParse "bad-A" = JsNum.nan ∧ nanParse "bad-B" = JsNum.nan ∧
    formatActivityTime nanParse (fun _ => "") "bad-A"
        ≠ formatActivityTime nanParse (fun _ => "") "bad-B" := by
  refine ⟨rfl, rfl, ?_⟩
  decide

/-- Claim C6 amended: an unparsable reference timestamp does not crash the
widget, but the degradation is not a fixed placeholder: the work-timer
display shows the NaN-propagated string `NaN:NaN:NaN`, and the header's
clock-in display falls back to echoing the raw timestamp string. -/
theorem unparsable_display_amended (parse : String → JsNum)
    (fmt : Int → String) (s : WidgetState) (e : CurrentTimeEntry) (now : Int)
    (h : s.currentEntry = some e) (ha : e.status = Status.active)
    (hp : parse e.clock_in = JsNum.nan) :
    formatTime ((updateTimer parse now s).elapsedTime) = "NaN:NaN:NaN" ∧
    (∀ t, parse t = JsNum.nan → formatActivityTime parse fmt t = t) := by
  constructor
  · simp [updateTimer, h, ha, hp, jsSub_nan, formatTime_nan]
  · intro t ht
    simp [formatActivityTime, ht]

/-- Witness for the amended C6 at a concrete unparsable environment. -/
theorem unparsable_display_amended_witness :
    formatTime ((updateTimer nanParse 0
        (readyState (some sampleActive))).elapsedTime) = "NaN:NaN:NaN" :=
  (unparsable_display_amended nanParse (fun _ => "")
      (readyState (some sampleActive)) sampleActive 0 rfl rfl rfl).1

/-- Claim C7: while an `active` or `break` session is held locally the
Clock In button is not rendered (hence not clickable), and the Clock In
button is only ever rendered when the local current session is none. -/
theorem clockIn_unavailable_when_open (s : WidgetState)
    (e : CurrentTimeEntry) (h : s.currentEntry = some e)
    (hs : e.status = Status.active ∨ e.status = Status.break_) :
    ApiAction.clock_in ∉ renderedActions s ∧
    ApiAction.clock_in ∉ clickableActions s ∧
    (∀ s2 : WidgetState, ApiAction.clock_in ∈ renderedActions s2 →
      s2.currentEntry = none) := by
  have hmem : ApiAction.clock_in ∉ renderedActions s := by
    rcases hs with ha | ha <;> simp [renderedActions, h, ha]
  refine ⟨hmem, ?_, ?_⟩
  · cases hl : s.isLoading <;> simp [clickableActions, hl, hmem]
  · intro s2 hm
    cases hce : s2.currentEntry with
    | none => rfl
    | some e2 =>
        by_cases he : e2.status = Status.active <;>
          simp [renderedActions, hce, he] at hm

/-- Witness for C7 at a concrete active session. -/
theorem clockIn_unavailable_when_open_witness :
    ApiAction.clock_in ∉ renderedActions (readyState (some sampleActive)) :=
  (clockIn_unavailable_when_open (readyState (some sampleActive))
      sampleActive rfl (Or.inl rfl)).1

/-- A concrete historical activity record, indexed for distinctness. -/
def sampleActivity (n : Nat) : RecentActivity :=
  { id := toString n, clock_in := "2024-01-01T09:00:00Z",
    status := Status.completed, date := "2024-01-01" }

/-- Claim C8: a successful history response with a data array leaves the
local recent-activity list equal to the first three entries in
server-provided order (`take 3` is an order-preserving prefix), and the
rendered history never exceeds three entries in any state. -/
theorem recentActivities_first_three (s : WidgetState) (r : ListResponse)
    (l : List RecentActivity) (hs : r.success = true) (hd : r.data = some l) :
    (fetchRecentActivities (ListFetchOutcome.ok r) s).1.recentActivities
        = l.take 3 ∧
    l.take 3 ++ l.drop 3 = l ∧
    (fetchRecentActivities
        (ListFetchOutcome.ok r) s).1.recentActivities.length ≤ 3 ∧
    (∀ s2 : WidgetState, (displayedActivities s2).length ≤ 3) := by
  refine ⟨?_, List.take_append_drop 3 l, ?_, ?_⟩
  · simp [fetchRecentActivities, hs, hd]
  · simp only [fetchRecentActivities, hs, hd]
    simp [List.length_take]
  · intro s2
    simp [displayedActivities, List.length_take]

/-- Witness for C8: a four-entry response is truncated to three. -/
theorem recentActivities_first_three_witness :
    (fetchRecentActivities (ListFetchOutcome.ok
        { success := true
          data := some [sampleActivity 0, sampleActivity 1,
                        sampleActivity 2, sampleActivity 3] })
        initialState).1.recentActivities
      = [sampleActivity 0, sampleActivity 1, sampleActivity 2,
         sampleActivity 3].take 3 :=
  (recentActivities_first_three initialState
      { success := true
        data := some [sampleActivity 0, sampleActivity 1,
                      sampleActivity 2, sampleActivity 3] }
      [sampleActivity 0, sampleActivity 1, sampleActivity 2,
       sampleActivity 3] rfl rfl).1

/-- Helper: one tick on a state holding an on-break session leaves the
work timer and the held session unchanged. -/
theorem updateTimer_break_frozen (parse : String → JsNum) (now : Int)
    (st : WidgetState) (e : CurrentTimeEntry) (h : st.currentEntry = some e)
    (hb : e.status = Status.break_) :
    (updateTimer parse now st).elapsedTime = st.elapsedTime ∧
    (updateTimer parse now st).currentEntry = st.currentEntry := by
  cases hbs : e.break_start with
  | none => simp [updateTimer, h, hb, hbs]
  | some bs =>
      by_cases hbe : bs = "" <;> simp [updateTimer, h, hb, hbs, hbe]

/-- Helper: any sequence of ticks on a state holding an on-break session
leaves the work timer unchanged. -/
theorem foldl_updateTimer_break (parse : String → JsNum) (ticks : List Int)
    (st : WidgetState) (e : CurrentTimeEntry) (h : st.currentEntry = some e)
    (hb : e.status = Status.break_) :
    (ticks.foldl (fun acc t => updateTimer parse t acc) st).elapsedTime
        = st.elapsedTime := by
  induction ticks generalizing st with
  | nil => rfl
  | cons t ts ih =>
      simp only [List.foldl_cons]
      have h1 := updateTimer_break_frozen parse t st e h hb
      rw [ih (updateTimer parse t st) (by rw [h1.2, h]), h1.1]

/-- Claim C9: a successful start-break (server returns an on-break session)
zeroes the break timer (displayed `00:00:00`) and leaves the work timer
untouched; every subsequent tick while the session stays on break leaves
the work timer frozen at its break-start value. -/
theorem startBreak_resets_and_freezes (s : WidgetState) (r : Response)
    (e : CurrentTimeEntry) (parse : String → JsNum) (ticks : List Int)
    (h : s.isLoading = false) (hs : r.success = true) (hd : r.data = some e)
    (hb : e.status = Status.break_) :
    (handleStartBreak (FetchOutcome.ok r) s).1.breakTime = JsNum.num 0 ∧
    formatTime (JsNum.num 0) = "00:00:00" ∧
    (handleStartBreak (FetchOutcome.ok r) s).1.elapsedTime = s.elapsedTime ∧
    (ticks.foldl (fun acc t => updateTimer parse t acc)
        (handleStartBreak (FetchOutcome.ok r) s).1).elapsedTime
        = s.elapsedTime := by
  have hstate : (handleStartBreak (FetchOutcome.ok r) s).1.currentEntry
      = some e := by
    simp [handleStartBreak, h, hs, hd]
  refine ⟨?_, by decide, ?_, ?_⟩
  · simp [handleStartBreak, h, hs]
  · simp [handleStartBreak, h, hs]
  · rw [foldl_updateTimer_break parse ticks _ e hstate hb]
    simp [handleStartBreak, h, hs]

/-- A pre-break state: five seconds of work time accumulated. -/
def frozenStart : WidgetState :=
  { readyState (some sampleActive) with elapsedTime := JsNum.num 5000 }

/-- Witness for C9: two ticks after a concrete start-break leave the work
timer at its pre-break value. -/
theorem startBreak_resets_and_freezes_witness :
    (([7000, 8000] : List Int).foldl
        (fun acc t => updateTimer (parseAt 6000) t acc)
        (handleStartBreak
            (FetchOutcome.ok { success := true, data := some sampleBreak })
            frozenStart).1).elapsedTime
      = frozenStart.elapsedTime :=
  (startBreak_resets_and_freezes frozenStart
      { success := true, data := some sampleBreak } sampleBreak
      (parseAt 6000) [7000, 8000] rfl rfl rfl rfl).2.2.2

/-- Claim C10: an HTTP-ok current-session response is written to the local
session from its `data` field without consulting the body's `success`
flag: even with `success = false`, a present `data` value replaces the
local current session. -/
theorem fetchCurrentEntry_ignores_success_flag (s : WidgetState)
    (r : Response) (e : CurrentTimeEntry)
    (hs : r.success = false) (hd : r.data = some e) :
    (fetchCurrentEntry (CurrentFetchOutcome.ok r) s).1.currentEntry
        = some e := by
  simp [fetchCurrentEntry, hd]

/-- Witness for C10 at a concrete ok-but-unsuccessful response. -/
theorem fetchCurrentEntry_ignores_success_flag_witness :
    (fetchCurrentEntry (CurrentFetchOutcome.ok
        { success := false, data := some sampleActive })
        initialState).1.currentEntry = some sampleActive :=
  fetchCurrentEntry_ignores_success_flag initialState
      { success := false, data := some sampleActive } sampleActive rfl rfl
